import Mathlib

/-!
Verification of the AGRICH blockchain event-ingestion pipeline.

Shallow embedding of `src/backend/app/workers/event_processor.py`,
`src/backend/app/services/blockchain_service.py` and
`src/backend/app/workers/blockchain_listener.py`.

Modelling conventions:
* timestamps (`datetime.now(UTC)`, `time.monotonic()`) are `Int` values passed
  explicitly as a `now` parameter; one instant per embedded call;
* uuids generated by `uuid.uuid4()` for event rows are modelled by a counter
  `next_id : Nat` threaded through the processor state; the random hex strings
  produced for mock transaction hashes are environment parameters;
* the relational store is a `List` of rows; the unique constraint on
  `(tx_hash, log_index)` and primary-key lookups follow the SQL semantics
  (`scalar_one_or_none`, `on_conflict_do_nothing`) on those lists;
* network nondeterminism (web3 client present, RPC failures, filter results)
  is an explicit environment record consumed by the service functions;
* `asyncio` locking and thread-pool dispatch serialise every call in the
  source, so each embedded operation is one atomic state transition.
-/

namespace Agrich

/-- Status lifecycle for persisted blockchain events
(`BlockchainEventStatus` in `app/models/blockchain_event.py`). -/
inductive BlockchainEventStatus where
  | PENDING
  | PROCESSING
  | COMPLETED
  | FAILED
deriving DecidableEq, Repr

/-- Lifecycle status for product batches (`BatchStatus` in `app/models/batch.py`). -/
inductive BatchStatus where
  | CREATED
  | IN_TRANSIT
  | DELIVERED
  | RECEIVED
  | REJECTED
deriving DecidableEq, Repr

/-- One row of the `blockchain_events` table (`BlockchainEvent` model).
`payload_args` keeps the `args` part of the JSON `payload` column; the other
payload entries duplicate the row's own columns and are reconstructed from
them on retry, exactly as `process_retriable_events` does. -/
structure EventRow where
  id : Nat
  event_name : String
  tx_hash : String
  log_index : Int
  block_number : Int
  payload_args : List (String × String)
  status : BlockchainEventStatus
  retry_count : Nat
  next_retry_at : Option Int
  processed_at : Option Int
  last_error : Option String
deriving DecidableEq, Repr

/-- One row of the `batches` table (`Batch` model); only the columns touched
by the event pipeline are modelled.  Batch and user ids are uuids kept as
their normalised 32-hex-digit string form. -/
structure Batch where
  id : String
  current_owner_id : String
  blockchain_tx_hash : Option String
  status : BatchStatus
deriving DecidableEq, Repr

/-- One row of the `users` table (`User` model); only the columns used by
`_apply_event`'s wallet lookup are modelled. -/
structure User where
  id : String
  wallet_address : String
deriving DecidableEq, Repr

/-- One event dict as produced by `BlockchainService.fetch_events` and
consumed by `EventProcessor.process_event`.  In the pipeline `log_index`
and `block_number` are already `int` (`fetch_events` converts them), and
`args` is a string-to-string mapping (`fetch_events` stringifies values). -/
structure ChainEvent where
  event_name : String
  tx_hash : String
  log_index : Int
  block_number : Int
  args : List (String × String)
deriving DecidableEq, Repr

/-! ### String helpers

Kernel-reducible counterparts of the Python string operations used by the
pipeline (`str.lower`, slicing, `str.replace`, `str.strip`). -/

/-- ASCII lower-casing of a string, as applied by `func.lower` /
`str.lower()` to wallet addresses (which are ASCII hex strings). -/
def str_lower (s : String) : String :=
  String.mk (s.toList.map Char.toLower)

/-- Python slicing `s[:n]` on code points (used by `reason[:2000]`). -/
def str_take (s : String) (n : Nat) : String :=
  String.mk (s.toList.take n)

/-- Fuel-driven worker for `erase_pat`: removes every non-overlapping
occurrence of `pat`, scanning left to right like Python's `str.replace(pat, "")`. -/
def erase_pat_fuel (pat : List Char) : Nat → List Char → List Char
  | 0, cs => cs
  | _ + 1, [] => []
  | fuel + 1, c :: rest =>
    if pat.isPrefixOf (c :: rest) && !pat.isEmpty then
      erase_pat_fuel pat fuel (List.drop (pat.length - 1) rest)
    else
      c :: erase_pat_fuel pat fuel rest

/-- `s.replace(pat, "")` in Python: delete all occurrences of `pat`. -/
def erase_pat (pat cs : List Char) : List Char :=
  erase_pat_fuel pat cs.length cs

/-- The `{` character, written via its code point. -/
def lbrace : Char := Char.ofNat 123

/-- The `}` character, written via its code point. -/
def rbrace : Char := Char.ofNat 125

/-- Python `str.strip` over the brace character set, as `uuid.UUID` applies. -/
def strip_braces (cs : List Char) : List Char :=
  let isBrace := fun c => c == lbrace || c == rbrace
  ((cs.dropWhile isBrace).reverse.dropWhile isBrace).reverse

/-- Hexadecimal digit test matching `int(hex, 16)` acceptance per character. -/
def isHexChar (c : Char) : Bool :=
  c.isDigit || ('a' ≤ c && c ≤ 'f') || ('A' ≤ c && c ≤ 'F')

/-- `uuid.UUID(s)` from CPython's constructor: strip `urn:` / `uuid:`
markers and braces, drop hyphens, require exactly 32 hex digits; the
resulting uuid is represented by its normalised lower-case hex form, so
equality of parses coincides with `uuid.UUID` equality. -/
def parseUUID (s : String) : Option String :=
  let cs := erase_pat "urn:".toList s.toList
  let cs := erase_pat "uuid:".toList cs
  let cs := strip_braces cs
  let cs := erase_pat ['-'] cs
  if cs.length == 32 && cs.all isHexChar then
    some (String.mk (cs.map Char.toLower))
  else
    none

/-- `args.get(k)` on the event-args mapping. -/
def get_arg (args : List (String × String)) (k : String) : Option String :=
  (args.find? (fun p => p.1 == k)).map (fun p => p.2)

/-- Python's `a or b or ... or ""` over `args.get` results: the first value
that is present and non-empty (a non-falsy string), else `""`. -/
def first_truthy : List (Option String) → String
  | [] => ""
  | none :: rest => first_truthy rest
  | some s :: rest => if s.isEmpty then first_truthy rest else s

/-! ### Event applier (`EventProcessor._apply_event`) -/

/-- Map over the batch rows, updating the one with the given primary key,
as mutating the ORM object loaded by primary key does. -/
def update_batch (batches : List Batch) (bid : String) (f : Batch → Batch) : List Batch :=
  batches.map (fun b => if b.id == bid then f b else b)

/-- `EventProcessor._apply_event`: apply one event's mutation to the batch
table, returning the handled flag and the updated table.  Mirrors the source
line by line: batch-id extraction and uuid parse, batch lookup, replay
guard on `blockchain_tx_hash`, then dispatch on the event name. -/
def apply_event (batches : List Batch) (users : List User)
    (event_name tx_hash : String) (args : List (String × String)) :
    Bool × List Batch :=
  let batch_id_raw := first_truthy [get_arg args "batchId", get_arg args "batch_id"]
  if batch_id_raw.isEmpty then (false, batches)
  else
    match parseUUID batch_id_raw with
    | none => (false, batches)
    | some bid =>
      match batches.find? (fun b => b.id == bid) with
      | none => (false, batches)
      | some batch =>
        if batch.blockchain_tx_hash == some tx_hash then (true, batches)
        else if event_name == "BatchMinted" then
          (true, update_batch batches bid (fun b =>
            { b with blockchain_tx_hash := some tx_hash, status := BatchStatus.CREATED }))
        else if event_name == "OwnershipTransferred" then
          let to_raw := first_truthy
            [get_arg args "to", get_arg args "newOwner", get_arg args "to_addr"]
          if to_raw.isEmpty then (false, batches)
          else
            match users.find? (fun u => str_lower u.wallet_address == str_lower to_raw) with
            | none => (false, batches)
            | some target_user =>
              (true, update_batch batches bid (fun b =>
                { b with current_owner_id := target_user.id,
                         status := BatchStatus.IN_TRANSIT,
                         blockchain_tx_hash := some tx_hash }))
        else (true, batches)

/-! ### Event store and processor (`EventProcessor`) -/

/-- The processor-visible database and in-memory state: the duplicate-key
cache `_processed_event_keys`, the `blockchain_events`, `batches` and
`users` tables, and the uuid generator for new event rows. -/
structure ProcState where
  processed_keys : List String
  events : List EventRow
  batches : List Batch
  users : List User
  next_id : Nat
deriving DecidableEq, Repr

/-- `EventProcessor._event_key`: deterministic duplicate-detection key. -/
def event_key (e : ChainEvent) : String :=
  e.tx_hash ++ ":" ++ e.event_name ++ ":" ++ toString e.log_index

/-- The `SELECT ... WHERE tx_hash = ... AND log_index = ...` lookup backing
the upsert; the unique constraint `uq_blockchain_events_tx_log` makes the
first match the only match. -/
def find_by_key (rows : List EventRow) (tx : String) (li : Int) : Option EventRow :=
  rows.find? (fun r => r.tx_hash == tx && r.log_index == li)

/-- Number of stored rows carrying a given `(tx_hash, log_index)` identity. -/
def count_key (rows : List EventRow) (tx : String) (li : Int) : Nat :=
  (rows.filter (fun r => r.tx_hash == tx && r.log_index == li)).length

/-- The values given to the INSERT of `_upsert_event_record`: a fresh
PENDING row for the event, with the processor's next generated id. -/
def fresh_row (st : ProcState) (e : ChainEvent) : EventRow :=
  { id := st.next_id
    event_name := e.event_name
    tx_hash := e.tx_hash
    log_index := e.log_index
    block_number := e.block_number
    payload_args := e.args
    status := BlockchainEventStatus.PENDING
    retry_count := 0
    next_retry_at := none
    processed_at := none
    last_error := none }

/-- The processor state after the INSERT of a fresh event row: the row is
appended and the uuid generator advances. -/
def insert_state (st : ProcState) (e : ChainEvent) : ProcState :=
  { st with events := st.events ++ [fresh_row st e], next_id := st.next_id + 1 }

/-- `EventProcessor._upsert_event_record`: insert-or-ignore against the
`(tx_hash, log_index)` unique constraint, then select the row id for that
key.  In the pipeline `log_index` / `block_number` are already ints, so the
`int(...)` conversions succeed; the returned id is therefore always `some`
(kept `Option` to mirror the source's `uuid.UUID | None` signature). -/
def upsert_event_record (st : ProcState) (e : ChainEvent) : ProcState × Option Nat :=
  match find_by_key st.events e.tx_hash e.log_index with
  | some row => (st, some row.id)
  | none => (insert_state st e, some st.next_id)

/-- Update the event row with the given primary key (`session.get` then
mutate); absent ids leave the table unchanged, as the source's early return
does. -/
def update_row (rows : List EventRow) (rid : Nat) (f : EventRow → EventRow) : List EventRow :=
  rows.map (fun r => if r.id == rid then f r else r)

/-- `EventProcessor.mark_event_failed` applied to one row: increment
`retry_count`, cap the backoff exponent at 8, schedule the retry, truncate
the error, and keep status `FAILED` (the source's conditional yields
`FAILED` in both branches). -/
def mark_event_failed_row (max_retries : Nat) (now : Int) (reason : String)
    (r : EventRow) : EventRow :=
  let rc := r.retry_count + 1
  let capped_attempt := min rc 8
  let backoff_seconds : Int := (2 : Int) ^ capped_attempt
  { r with
      retry_count := rc
      last_error := some (str_take reason 2000)
      next_retry_at := some (now + backoff_seconds)
      status := if rc < max_retries then BlockchainEventStatus.FAILED
                else BlockchainEventStatus.FAILED }

/-- `EventProcessor.mark_event_failed` over the events table. -/
def mark_event_failed (rows : List EventRow) (rid : Nat) (max_retries : Nat)
    (now : Int) (reason : String) : List EventRow :=
  update_row rows rid (mark_event_failed_row max_retries now reason)

/-- The SQL test `next_retry_at IS NULL OR next_retry_at <= now` used by both
the backlog count and the retriable-events query. -/
def retry_due (now : Int) : Option Int → Bool
  | none => true
  | some t => decide (t ≤ now)

/-- Per-row predicate of `EventProcessor.get_event_backlog_size`'s WHERE
clause: pending or processing, or failed with an elapsed (or absent) retry
deadline.  `retry_count` is never consulted. -/
def backlog_pred (now : Int) (r : EventRow) : Bool :=
  (r.status == BlockchainEventStatus.PENDING
      || r.status == BlockchainEventStatus.PROCESSING)
    || (r.status == BlockchainEventStatus.FAILED && retry_due now r.next_retry_at)

/-- `EventProcessor.get_event_backlog_size`: `SELECT count(*)` under
`backlog_pred`. -/
def get_event_backlog_size (now : Int) (rows : List EventRow) : Nat :=
  (rows.filter (backlog_pred now)).length

/-- `EventProcessor.get_last_processed_block`: `max(block_number)` over
COMPLETED rows, `none` when there are none (SQL `max` of no rows is NULL). -/
def get_last_processed_block (rows : List EventRow) : Option Int :=
  (rows.filter (fun r => r.status == BlockchainEventStatus.COMPLETED)).foldl
    (fun acc r =>
      match acc with
      | none => some r.block_number
      | some m => some (max m r.block_number))
    none

/-- Per-row predicate of `EventProcessor.process_retriable_events`' WHERE
clause: failed, retry budget left, and retry deadline elapsed or absent. -/
def retriable_pred (max_retries : Nat) (now : Int) (r : EventRow) : Bool :=
  r.status == BlockchainEventStatus.FAILED
    && decide (r.retry_count < max_retries)
    && retry_due now r.next_retry_at

/-- The `ORDER BY block_number ASC, log_index ASC` comparison. -/
def event_order_le (a b : EventRow) : Bool :=
  decide (a.block_number < b.block_number)
    || (a.block_number == b.block_number && decide (a.log_index ≤ b.log_index))

/-- Insertion step of the order-by sort. -/
def insert_sorted (a : EventRow) : List EventRow → List EventRow
  | [] => [a]
  | b :: rest => if event_order_le a b then a :: b :: rest else b :: insert_sorted a rest

/-- Sort rows by `(block_number, log_index)` ascending. -/
def sort_events (rows : List EventRow) : List EventRow :=
  rows.foldr insert_sorted []

/-- The row set selected by `EventProcessor.process_retriable_events`:
filter by `retriable_pred`, order by `(block_number, log_index)`, limit. -/
def retriable_events (max_retries : Nat) (now : Int) (lim : Nat)
    (rows : List EventRow) : List EventRow :=
  (sort_events (rows.filter (retriable_pred max_retries now))).take lim

/-- `EventProcessor.process_event`: duplicate-key fast path, durable upsert,
re-read of the row under lock, COMPLETED / FAILED-with-future-retry guards,
PROCESSING transition, domain apply, and the COMPLETED or FAILED outcome.
The `args` mapping is typed, so the `isinstance` guard always passes; the
trust-score update is an external collaborator and the embedded transaction
never raises, so the exception branch is unreachable. -/
def process_event (now : Int) (max_retries : Nat) (st : ProcState) (e : ChainEvent) :
    Bool × ProcState :=
  let key := event_key e
  if st.processed_keys.contains key then (true, st)
  else
    let up := upsert_event_record st e
    let st1 := up.1
    match up.2 with
    | none => (false, st1)
    | some rec_id =>
      match st1.events.find? (fun r => r.id == rec_id) with
      | none => (false, st1)
      | some event_record =>
        if event_record.status == BlockchainEventStatus.COMPLETED then (true, st1)
        else if event_record.status == BlockchainEventStatus.FAILED
            && (match event_record.next_retry_at with
                | some t => decide (now < t)
                | none => false) then
          (false, st1)
        else
          let st2 := { st1 with
            events := update_row st1.events rec_id
              (fun r => { r with status := BlockchainEventStatus.PROCESSING }) }
          let res := apply_event st2.batches st2.users e.event_name e.tx_hash e.args
          let st3 := { st2 with batches := res.2 }
          if !res.1 then
            (false, { st3 with
              events := mark_event_failed st3.events rec_id max_retries now
                "Domain apply returned false" })
          else
            (true, { st3 with
              events := update_row st3.events rec_id
                (fun r => { r with
                  status := BlockchainEventStatus.COMPLETED
                  processed_at := some now
                  last_error := none
                  next_retry_at := none })
              processed_keys := st3.processed_keys ++ [key] })

/-- `EventProcessor.process_retriable_events`: select the retriable snapshot,
then feed each reconstructed event dict back through `process_event`,
counting successes. -/
def process_retriable_events (now : Int) (max_retries lim : Nat) (st : ProcState) :
    Nat × ProcState :=
  let rows := retriable_events max_retries now lim st.events
  rows.foldl
    (fun acc r =>
      let e : ChainEvent :=
        { event_name := r.event_name
          tx_hash := r.tx_hash
          log_index := r.log_index
          block_number := r.block_number
          args := r.payload_args }
      let res := process_event now max_retries acc.2 e
      (if res.1 then acc.1 + 1 else acc.1, res.2))
    (0, st)

/-! ### Blockchain service (`BlockchainService`) -/

/-- `BlockchainTxResult` dataclass: the complete set of fields a transaction
outcome carries — `success`, `tx_hash`, `network` and nothing else. -/
structure BlockchainTxResult where
  success : Bool
  tx_hash : String
  network : String
deriving DecidableEq, Repr

/-- Circuit-breaker state held by a `BlockchainService` instance:
`_failure_count` and `_cooldown_until` (monotonic-clock deadline). -/
structure CircuitState where
  failure_count : Nat
  cooldown_until : Int
deriving DecidableEq, Repr

/-- `BlockchainService._is_circuit_open`. -/
def is_circuit_open (now : Int) (cb : CircuitState) : Bool :=
  decide (now < cb.cooldown_until)

/-- `BlockchainService._record_failure`: bump the counter; at the threshold
open the cooldown window. -/
def record_failure (now : Int) (threshold : Nat) (cooldown : Int)
    (cb : CircuitState) : CircuitState :=
  let fc := cb.failure_count + 1
  if threshold ≤ fc then { failure_count := fc, cooldown_until := now + cooldown }
  else { cb with failure_count := fc }

/-- `BlockchainService._record_success`: reset the counter and close the
circuit immediately. -/
def record_success (_cb : CircuitState) : CircuitState :=
  { failure_count := 0, cooldown_until := 0 }

/-- `BlockchainService._mock_tx_result`, parametrised by the random hex
string `uuid4` produces: a result shaped exactly like a confirmed
transaction (`success := true`, network `ethereum`). -/
def mock_tx_result (mock_hash : String) : BlockchainTxResult :=
  { success := true, tx_hash := mock_hash, network := "ethereum" }

/-- Environment for one transaction-submitting call: client availability,
configured sender, whether the RPC interaction raises (RPC error, timeout
or revert all surface as exceptions from `_transact` / `wait_for`), the
receipt hash on success, and the random hash a mock result would carry. -/
structure TxEnv where
  web3_available : Bool
  contract_available : Bool
  default_sender : String
  tx_fails : Bool
  tx_hash : String
  mock_hash : String
deriving DecidableEq, Repr

/-- `BlockchainService.mint_batch`: circuit short-circuit, missing-client /
missing-sender mock fallback with a recorded failure, the real transaction,
and the exception fallback.  Every path returns a `BlockchainTxResult`. -/
def mint_batch (now : Int) (threshold : Nat) (cooldown : Int) (env : TxEnv)
    (cb : CircuitState) : BlockchainTxResult × CircuitState :=
  if is_circuit_open now cb then (mock_tx_result env.mock_hash, cb)
  else if !env.web3_available || !env.contract_available || env.default_sender.isEmpty then
    (mock_tx_result env.mock_hash, record_failure now threshold cooldown cb)
  else if env.tx_fails then
    (mock_tx_result env.mock_hash, record_failure now threshold cooldown cb)
  else
    ({ success := true, tx_hash := env.tx_hash, network := "ethereum" },
      record_success cb)

/-- `BlockchainService.transfer_ownership`: same structure as `mint_batch`
but without the sender check (addresses come from the call arguments and
checksum failures surface inside the `try`, i.e. as `tx_fails`). -/
def transfer_ownership (now : Int) (threshold : Nat) (cooldown : Int) (env : TxEnv)
    (cb : CircuitState) : BlockchainTxResult × CircuitState :=
  if is_circuit_open now cb then (mock_tx_result env.mock_hash, cb)
  else if !env.web3_available || !env.contract_available then
    (mock_tx_result env.mock_hash, record_failure now threshold cooldown cb)
  else if env.tx_fails then
    (mock_tx_result env.mock_hash, record_failure now threshold cooldown cb)
  else
    ({ success := true, tx_hash := env.tx_hash, network := "ethereum" },
      record_success cb)

/-- Environment for one `fetch_events` poll: client availability, whether
reading `eth.block_number` raises, the latest block, whether the filter
fetch raises, and the entries the two event filters return (each list in
its filter's own order). -/
structure RpcEnv where
  web3_available : Bool
  contract_available : Bool
  block_number_fails : Bool
  latest_block : Int
  fetch_fails : Bool
  minted : List ChainEvent
  transferred : List ChainEvent
deriving Repr

/-- `BlockchainService.fetch_events`: missing clients → `([], from_block)`
with a recorded failure; latest block behind the cursor →
`([], latest_block)`; fetch failure → `([], from_block)`; success → the
`BatchMinted` entries followed by the `OwnershipTransferred` entries
(`[*minted, *transferred]`) and `latest_block + 1`.  Note the function
never consults `_is_circuit_open`. -/
def fetch_events (now : Int) (threshold : Nat) (cooldown : Int) (env : RpcEnv)
    (cb : CircuitState) (from_block : Int) :
    (List ChainEvent × Int) × CircuitState :=
  if !env.web3_available || !env.contract_available then
    (([], from_block), record_failure now threshold cooldown cb)
  else if env.block_number_fails then
    (([], from_block), record_failure now threshold cooldown cb)
  else if env.latest_block < from_block then
    (([], env.latest_block), cb)
  else if env.fetch_fails then
    (([], from_block), record_failure now threshold cooldown cb)
  else
    ((env.minted ++ env.transferred, env.latest_block + 1), record_success cb)

/-! ### Listener loop (`BlockchainListener`) -/

/-- `BlockchainListener.__init__` sets `self._from_block = 0`: the polling
cursor starts at block 0 regardless of the event store's contents. -/
def listener_init_from_block : Int := 0

/-- The listener-loop state relevant to one polling cycle: the in-memory
cursor `_from_block` and the processor state behind `event_processor`. -/
structure ListenerState where
  from_block : Int
  proc : ProcState
deriving Repr

/-- The `for event in events: await self._handle_event(event)` loop: apply
the fetched events strictly in list order. -/
def apply_events (now : Int) (max_retries : Nat) (st : ProcState)
    (events : List ChainEvent) : ProcState :=
  events.foldl (fun s e => (process_event now max_retries s e).2) st

/-- One iteration of `BlockchainListener.start`'s polling loop: retry sweep,
fetch, cursor update from the fetch result, then in-order application of the
fetched events. -/
def listener_cycle (now : Int) (threshold : Nat) (cooldown : Int)
    (max_retries lim : Nat) (env : RpcEnv) (cb : CircuitState)
    (st : ListenerState) : ListenerState × CircuitState :=
  let proc1 := (process_retriable_events now max_retries lim st.proc).2
  let fetched := fetch_events now threshold cooldown env cb st.from_block
  let proc2 := apply_events now max_retries proc1 fetched.1.1
  ({ from_block := fetched.1.2, proc := proc2 }, fetched.2)

/-! ### Spec-side definitions

Definitions below formalise wording of the specification (not code), used to
compare the code's behaviour against the spec's claims. -/

/-- The spec's "sorted by `(block_number, log_index)`" (on-chain log order)
as a check on an event list. -/
def is_sorted_by_block_log : List ChainEvent → Bool
  | [] => true
  | [_] => true
  | a :: b :: rest =>
    (decide (a.block_number < b.block_number)
        || (a.block_number == b.block_number && decide (a.log_index ≤ b.log_index)))
      && is_sorted_by_block_log (b :: rest)

/-- The event row that `process_event` leaves behind when an
`OwnershipTransferred` event names a wallet with no matching user: the
freshly inserted row, marked FAILED with one retry and a two-second
backoff (the expected outcome the corresponding theorem proves). -/
def failed_after_no_user (st : ProcState) (e : ChainEvent) (now : Int) : EventRow :=
  { fresh_row st e with
      status := BlockchainEventStatus.FAILED
      retry_count := 1
      next_retry_at := some (now + 2)
      last_error := some (str_take "Domain apply returned false" 2000) }

/-! ### Concrete instances used by witnesses and counterexamples -/

/-- A batch with no recorded transaction hash. -/
def batchW : Batch :=
  { id := "00000000000000000000000000000001"
    current_owner_id := "00000000000000000000000000000009"
    blockchain_tx_hash := none
    status := BatchStatus.CREATED }

/-- The same batch after a `BatchMinted` event with hash `0xaa` applied. -/
def batchDone : Batch :=
  { id := "00000000000000000000000000000001"
    current_owner_id := "00000000000000000000000000000009"
    blockchain_tx_hash := some "0xaa"
    status := BatchStatus.CREATED }

/-- A fresh processor state holding only `batchW`. -/
def stW : ProcState :=
  { processed_keys := [], events := [], batches := [batchW], users := [], next_id := 0 }

/-- A `BatchMinted` event targeting `batchW`. -/
def eW : ChainEvent :=
  { event_name := "BatchMinted"
    tx_hash := "0xaa"
    log_index := 0
    block_number := 10
    args := [("batchId", "00000000-0000-0000-0000-000000000001")] }

/-- A batch used by the transfer-to-unknown-wallet scenario. -/
def batchT : Batch :=
  { id := "00000000000000000000000000000002"
    current_owner_id := "00000000000000000000000000000007"
    blockchain_tx_hash := none
    status := BatchStatus.CREATED }

/-- A processor state holding `batchT` and no users at all. -/
def stT : ProcState :=
  { processed_keys := [], events := [], batches := [batchT], users := [], next_id := 0 }

/-- An `OwnershipTransferred` event whose target wallet matches no user. -/
def eT : ChainEvent :=
  { event_name := "OwnershipTransferred"
    tx_hash := "0xbb"
    log_index := 1
    block_number := 11
    args := [("batchId", "00000000-0000-0000-0000-000000000002"), ("to", "0xDEAD")] }

/-- A `BatchMinted` filter entry at block 20. -/
def mintedHigh : ChainEvent :=
  { event_name := "BatchMinted", tx_hash := "0xm1", log_index := 0,
    block_number := 20, args := [] }

/-- An `OwnershipTransferred` filter entry at the earlier block 10. -/
def transferredLow : ChainEvent :=
  { event_name := "OwnershipTransferred", tx_hash := "0xt1", log_index := 0,
    block_number := 10, args := [] }

/-- A healthy RPC environment returning a minted entry at block 20 and a
transferred entry at block 10. -/
def envOrder : RpcEnv :=
  { web3_available := true, contract_available := true, block_number_fails := false,
    latest_block := 20, fetch_fails := false,
    minted := [mintedHigh], transferred := [transferredLow] }

/-- A healthy RPC environment whose chain head (block 3) is behind the
cursor used in the tests (block 5). -/
def envBehind : RpcEnv :=
  { web3_available := true, contract_available := true, block_number_fails := false,
    latest_block := 3, fetch_fails := false, minted := [], transferred := [] }

/-- An environment with no web3 client at all. -/
def envDown : RpcEnv :=
  { web3_available := false, contract_available := false, block_number_fails := false,
    latest_block := 0, fetch_fails := false, minted := [], transferred := [] }

/-- An environment where reading the latest block number raises. -/
def envBlockFail : RpcEnv :=
  { web3_available := true, contract_available := true, block_number_fails := true,
    latest_block := 20, fetch_fails := false, minted := [], transferred := [] }

/-- An environment where the filter fetch raises. -/
def envFetchFail : RpcEnv :=
  { web3_available := true, contract_available := true, block_number_fails := false,
    latest_block := 20, fetch_fails := true, minted := [], transferred := [] }

/-- A closed circuit breaker. -/
def cb0 : CircuitState := { failure_count := 0, cooldown_until := 0 }

/-- The breaker after three consecutive failures recorded at time 50 with
threshold 3 and cooldown 30: open until 80. -/
def cbOpen : CircuitState :=
  record_failure 50 3 30 (record_failure 50 3 30 (record_failure 50 3 30 cb0))

/-- A transaction environment with no clients (degraded mode), whose mock
hash collides with a plausible real receipt hash. -/
def envMintDown : TxEnv :=
  { web3_available := false, contract_available := false, default_sender := "0xSender",
    tx_fails := false, tx_hash := "0xreal", mock_hash := "0xcafe" }

/-- A healthy transaction environment whose real receipt hash equals the
mock hash of `envMintDown`. -/
def envMintOk : TxEnv :=
  { web3_available := true, contract_available := true, default_sender := "0xSender",
    tx_fails := false, tx_hash := "0xcafe", mock_hash := "0xzz" }

/-- A COMPLETED event row at block 100. -/
def completedRow100 : EventRow :=
  { id := 0, event_name := "BatchMinted", tx_hash := "0xcc", log_index := 0,
    block_number := 100, payload_args := [],
    status := BlockchainEventStatus.COMPLETED, retry_count := 0,
    next_retry_at := none, processed_at := some 0, last_error := none }

/-- A FAILED row with no retries yet. -/
def rowFresh : EventRow :=
  { id := 3, event_name := "OwnershipTransferred", tx_hash := "0xdd", log_index := 2,
    block_number := 12, payload_args := [],
    status := BlockchainEventStatus.FAILED, retry_count := 0,
    next_retry_at := none, processed_at := none, last_error := none }

/-- A poison row: FAILED with the retry budget (5) exhausted and an elapsed
retry deadline. -/
def poisonRow : EventRow :=
  { id := 4, event_name := "OwnershipTransferred", tx_hash := "0xee", log_index := 3,
    block_number := 13, payload_args := [],
    status := BlockchainEventStatus.FAILED, retry_count := 5,
    next_retry_at := some 10, processed_at := none, last_error := some "boom" }

/-! ### Helper lemmas -/

/-- Appending an element to a list makes `contains` find it. -/
theorem contains_append_self (l : List String) (a : String) :
    (l ++ [a]).contains a = true := by
  induction l with
  | nil => simp
  | cons b t ih => simp [ih]

/-- `find?` skips a prefix on which it fails. -/
theorem find?_append_of_none {α : Type} {p : α → Bool} {l : List α} (l' : List α)
    (h : l.find? p = none) : (l ++ l').find? p = l'.find? p := by
  induction l with
  | nil => rfl
  | cons b t ih =>
    cases hp : p b with
    | true => rw [List.find?_cons_of_pos _ hp] at h; cases h
    | false =>
      have hp' : ¬ p b = true := by simp [hp]
      rw [List.find?_cons_of_neg _ hp'] at h
      rw [List.cons_append, List.find?_cons_of_neg _ hp']
      exact ih h

/-- A list on which `find?` fails has an empty filtration. -/
theorem filter_nil_of_find?_none {α : Type} {p : α → Bool} {l : List α}
    (h : l.find? p = none) : l.filter p = [] := by
  rw [List.filter_eq_nil_iff]
  intro a ha
  have := List.find?_eq_none.mp h a ha
  simpa using this

/-- A successful `find?` gives the filtration at least one element. -/
theorem length_filter_pos_of_find?_some {α : Type} {p : α → Bool} {l : List α}
    {a : α} (h : l.find? p = some a) : 1 ≤ (l.filter p).length := by
  have hmem := List.mem_of_find?_eq_some h
  have hp := List.find?_some h
  have : a ∈ l.filter p := List.mem_filter.mpr ⟨hmem, hp⟩
  exact List.length_pos.mpr (List.ne_nil_of_mem this)

/-- Updating by a primary key held by none of the prefix rows touches only
the appended row. -/
theorem update_row_append_fresh (l : List EventRow) (row : EventRow)
    (f : EventRow → EventRow) (h : ∀ r ∈ l, (r.id == row.id) = false) :
    update_row (l ++ [row]) row.id f = l ++ [f row] := by
  unfold update_row
  rw [List.map_append]
  congr 1
  · conv_rhs => rw [show l = l.map id from (List.map_id l).symm]
    apply List.map_congr_left
    intro r hr
    simp [h r hr]
  · simp

/-- Looking up a primary key held by none of the prefix rows finds the
appended row. -/
theorem find?_id_append_fresh (l : List EventRow) (row : EventRow)
    (h : ∀ r ∈ l, (r.id == row.id) = false) :
    (l ++ [row]).find? (fun r => r.id == row.id) = some row := by
  rw [find?_append_of_none [row] (List.find?_eq_none.mpr (fun x hx => by simp [h x hx]))]
  simp [List.find?_cons_of_pos]

/-- Membership in an insertion step of the order-by sort. -/
theorem mem_of_mem_insert_sorted {x a : EventRow} {l : List EventRow}
    (h : x ∈ insert_sorted a l) : x = a ∨ x ∈ l := by
  induction l with
  | nil => simpa [insert_sorted] using h
  | cons b t ih =>
    rw [insert_sorted] at h
    by_cases hc : event_order_le a b = true
    · simp only [hc, if_true] at h
      rcases List.mem_cons.mp h with h | h
      · exact Or.inl h
      · exact Or.inr h
    · simp only [hc, if_false] at h
      rcases List.mem_cons.mp h with h | h
      · exact Or.inr (List.mem_cons.mpr (Or.inl h))
      · rcases ih h with h' | h'
        · exact Or.inl h'
        · exact Or.inr (List.mem_cons.mpr (Or.inr h'))

/-- The order-by sort permutes membership. -/
theorem mem_of_mem_sort {x : EventRow} {l : List EventRow}
    (h : x ∈ sort_events l) : x ∈ l := by
  induction l with
  | nil => simp [sort_events] at h
  | cons b t ih =>
    have h' : x ∈ insert_sorted b (sort_events t) := h
    rcases mem_of_mem_insert_sorted h' with h'' | h''
    · simp [h'']
    · exact List.mem_cons.mpr (Or.inr (ih h''))

/-- A row failing the retriable predicate is never selected by the
retriable-events query, whatever the table and limit. -/
theorem not_mem_retriable_of_pred_false {mr : Nat} {now : Int} {lim : Nat}
    {rows : List EventRow} {r : EventRow}
    (h : retriable_pred mr now r = false) :
    r ∉ retriable_events mr now lim rows := by
  intro hmem
  have h1 : r ∈ sort_events (rows.filter (retriable_pred mr now)) :=
    List.take_subset _ _ hmem
  have h2 : r ∈ rows.filter (retriable_pred mr now) := mem_of_mem_sort h1
  have h3 := (List.mem_filter.mp h2).2
  rw [h] at h3
  cases h3

/-! ### Claim C2 -/

/-- C2, counterexample: in a healthy poll over `[5, 20]` whose filters
return a `BatchMinted` entry at block 20 and an `OwnershipTransferred`
entry at block 10, `fetch_events` returns the minted entry first — the
returned list is not sorted by `(block_number, log_index)` across event
types, so the claim's ordering property fails at this input. -/
theorem C2_fetch_order_counterexample :
    (fetch_events 0 3 30 envOrder cb0 5).1 = ([mintedHigh, transferredLow], 21) ∧
    (5 : Int) ≤ transferredLow.block_number ∧
    mintedHigh.block_number ≤ envOrder.latest_block ∧
    is_sorted_by_block_log [mintedHigh, transferredLow] = false := by
  decide

/-- C2, amended: a successful `fetch_events` returns the `BatchMinted`
filter entries followed by the `OwnershipTransferred` filter entries
(each sub-list in its own filter order, not globally sorted across event
types), and the listener applies the returned events strictly in list
order (head first). -/
theorem C2_fetch_order_amended (now : Int) (th : Nat) (cd : Int) (env : RpcEnv)
    (cb : CircuitState) (fb : Int)
    (hw : env.web3_available = true) (hc : env.contract_available = true)
    (hbn : env.block_number_fails = false) (hle : fb ≤ env.latest_block)
    (hf : env.fetch_fails = false) :
    (fetch_events now th cd env cb fb).1
      = (env.minted ++ env.transferred, env.latest_block + 1) ∧
    ∀ (mr : Nat) (st : ProcState) (e : ChainEvent) (rest : List ChainEvent),
      apply_events now mr st (e :: rest)
        = apply_events now mr ((process_event now mr st e).2) rest := by
  constructor
  · have hnlt : ¬ env.latest_block < fb := not_lt.2 hle
    simp [fetch_events, hw, hc, hbn, hnlt, hf]
  · intro mr st e rest
    rfl

/-- C2, witness for the amended theorem at a concrete healthy poll. -/
theorem C2_witness :
    (fetch_events 0 3 30 envOrder cb0 5).1
      = (envOrder.minted ++ envOrder.transferred, envOrder.latest_block + 1) ∧
    apply_events 0 5 stW [eW]
      = apply_events 0 5 ((process_event 0 5 stW eW).2) [] := by
  have h := C2_fetch_order_amended 0 3 30 envOrder cb0 5 rfl rfl rfl (by decide) rfl
  exact ⟨h.1, h.2 5 stW eW []⟩

/-! ### Claim C3 -/

/-- C3, counterexample: the listener constructor sets the polling cursor to
the constant 0, so with a durable store whose highest COMPLETED event is at
block 100 the cursor (0) differs from `get_last_processed_block + 1` (101)
even though COMPLETED events exist — the cursor is not derived from the
durable event store. -/
theorem C3_cursor_counterexample :
    listener_init_from_block = 0 ∧
    get_last_processed_block [completedRow100] = some 100 ∧
    ¬ listener_init_from_block = 100 + 1 := by
  refine ⟨rfl, by decide, by decide⟩

/-- C3, amended: the polling cursor is an in-memory field initialised to
block 0 and updated each cycle to exactly the next-cursor value returned by
`fetch_events`; it is an independent second source of truth — the cycle's
resulting cursor is the same whatever the durable event store contains, and
`get_last_processed_block` (max COMPLETED block, exposed for health
reporting) never feeds it. -/
theorem C3_cursor_amended (now : Int) (threshold : Nat) (cooldown : Int)
    (max_retries lim : Nat) (env : RpcEnv) (cb : CircuitState) (fb : Int)
    (p p' : ProcState) :
    listener_init_from_block = 0 ∧
    (listener_cycle now threshold cooldown max_retries lim env cb
        { from_block := fb, proc := p }).1.from_block
      = (fetch_events now threshold cooldown env cb fb).1.2 ∧
    (listener_cycle now threshold cooldown max_retries lim env cb
        { from_block := fb, proc := p }).1.from_block
      = (listener_cycle now threshold cooldown max_retries lim env cb
        { from_block := fb, proc := p' }).1.from_block :=
  ⟨rfl, rfl, rfl⟩

/-! ### Claim C4 -/

/-- C4, counterexample: with a healthy client whose chain head (block 3) is
behind the cursor (block 5), `fetch_events` returns `([], 3)` — the chain
head, not the unchanged cursor `([], 5)` the claim states. -/
theorem C4_no_new_blocks_counterexample :
    (fetch_events 0 3 30 envBehind cb0 5).1 = ([], 3) ∧
    (fetch_events 0 3 30 envBehind cb0 5).1 ≠ ([], 5) := by
  decide

/-- C4, amended: `fetch_events` returns `([], from_block)` unchanged when
the clients are missing, when reading the latest block fails, or when the
filter fetch fails; when the latest block is behind `from_block` it returns
`([], latest_block)` — moving the cursor back to the chain head rather than
leaving it unchanged; on success it returns the events and
`latest_block + 1`. -/
theorem C4_fetch_cursor_amended :
    (∀ (now : Int) (th : Nat) (cd : Int) (env : RpcEnv) (cb : CircuitState) (fb : Int),
        env.web3_available = false ∨ env.contract_available = false →
        (fetch_events now th cd env cb fb).1 = ([], fb)) ∧
    (∀ (now : Int) (th : Nat) (cd : Int) (env : RpcEnv) (cb : CircuitState) (fb : Int),
        env.web3_available = true → env.contract_available = true →
        env.block_number_fails = true →
        (fetch_events now th cd env cb fb).1 = ([], fb)) ∧
    (∀ (now : Int) (th : Nat) (cd : Int) (env : RpcEnv) (cb : CircuitState) (fb : Int),
        env.web3_available = true → env.contract_available = true →
        env.block_number_fails = false → env.latest_block < fb →
        (fetch_events now th cd env cb fb).1 = ([], env.latest_block)) ∧
    (∀ (now : Int) (th : Nat) (cd : Int) (env : RpcEnv) (cb : CircuitState) (fb : Int),
        env.web3_available = true → env.contract_available = true →
        env.block_number_fails = false → fb ≤ env.latest_block →
        env.fetch_fails = true →
        (fetch_events now th cd env cb fb).1 = ([], fb)) ∧
    (∀ (now : Int) (th : Nat) (cd : Int) (env : RpcEnv) (cb : CircuitState) (fb : Int),
        env.web3_available = true → env.contract_available = true →
        env.block_number_fails = false → fb ≤ env.latest_block →
        env.fetch_fails = false →
        (fetch_events now th cd env cb fb).1
          = (env.minted ++ env.transferred, env.latest_block + 1)) := by
  refine ⟨?_, ?_, ?_, ?_, ?_⟩
  · intro now th cd env cb fb h
    rcases h with h | h <;> simp [fetch_events, h]
  · intro now th cd env cb fb hw hc hbn
    simp [fetch_events, hw, hc, hbn]
  · intro now th cd env cb fb hw hc hbn hlt
    simp [fetch_events, hw, hc, hbn, hlt]
  · intro now th cd env cb fb hw hc hbn hle hf
    have hnlt : ¬ env.latest_block < fb := not_lt.2 hle
    simp [fetch_events, hw, hc, hbn, hnlt, hf]
  · intro now th cd env cb fb hw hc hbn hle hf
    have hnlt : ¬ env.latest_block < fb := not_lt.2 hle
    simp [fetch_events, hw, hc, hbn, hnlt, hf]

/-- C4, witness: one concrete poll per branch of the amended theorem. -/
theorem C4_witness :
    (fetch_events 0 3 30 envDown cb0 5).1 = ([], 5) ∧
    (fetch_events 0 3 30 envBlockFail cb0 5).1 = ([], 5) ∧
    (fetch_events 0 3 30 envBehind cb0 5).1 = ([], 3) ∧
    (fetch_events 0 3 30 envFetchFail cb0 5).1 = ([], 5) ∧
    (fetch_events 0 3 30 envOrder cb0 5).1 = ([mintedHigh, transferredLow], 21) := by
  refine ⟨C4_fetch_cursor_amended.1 0 3 30 envDown cb0 5 (Or.inl rfl),
          C4_fetch_cursor_amended.2.1 0 3 30 envBlockFail cb0 5 rfl rfl rfl,
          C4_fetch_cursor_amended.2.2.1 0 3 30 envBehind cb0 5 rfl rfl rfl (by decide),
          C4_fetch_cursor_amended.2.2.2.1 0 3 30 envFetchFail cb0 5 rfl rfl rfl
            (by decide) rfl,
          ?_⟩
  have h := C4_fetch_cursor_amended.2.2.2.2 0 3 30 envOrder cb0 5 rfl rfl rfl
    (by decide) rfl
  rw [h]
  decide

/-! ### Claim C5 -/

/-- C5, counterexample: a degraded `mint_batch` call (no web3 client) whose
mock hash happens to equal a real receipt hash returns a
`BlockchainTxResult` value-identical to the one a real confirmed
transaction returns — and it reports `success = true`.  `BlockchainTxResult`
carries only `success`, `tx_hash` and `network`, so no `mocked` flag exists
and callers cannot detect the degraded/synthetic response. -/
theorem C5_mock_flag_counterexample :
    (mint_batch 0 3 30 envMintDown cb0).1 = (mint_batch 0 3 30 envMintOk cb0).1 ∧
    (mint_batch 0 3 30 envMintDown cb0).1.success = true := by
  decide

/-- C5, amended: `mint_batch` and `transfer_ownership` return a value on
every failure mode (open circuit, missing client/sender, RPC error, timeout
or revert) instead of raising, but the returned result always has
`success = true` and `network = "ethereum"`; the failure paths all return
`mock_tx_result`, which is shaped exactly like a confirmed transaction —
there is no `mocked` flag on `BlockchainTxResult`, so the degraded response
is not distinguishable from a real one by the caller. -/
theorem C5_degraded_result_amended (now : Int) (th : Nat) (cd : Int)
    (env : TxEnv) (cb : CircuitState) :
    ((mint_batch now th cd env cb).1.success = true ∧
      (mint_batch now th cd env cb).1.network = "ethereum" ∧
      (transfer_ownership now th cd env cb).1.success = true ∧
      (transfer_ownership now th cd env cb).1.network = "ethereum") ∧
    (is_circuit_open now cb = true →
      mint_batch now th cd env cb = (mock_tx_result env.mock_hash, cb) ∧
      transfer_ownership now th cd env cb = (mock_tx_result env.mock_hash, cb)) ∧
    (env.web3_available = false →
      (mint_batch now th cd env cb).1 = mock_tx_result env.mock_hash ∧
      (transfer_ownership now th cd env cb).1 = mock_tx_result env.mock_hash) ∧
    (env.tx_fails = true →
      (mint_batch now th cd env cb).1 = mock_tx_result env.mock_hash ∧
      (transfer_ownership now th cd env cb).1 = mock_tx_result env.mock_hash) ∧
    mock_tx_result env.mock_hash
      = { success := true, tx_hash := env.mock_hash, network := "ethereum" } := by
  refine ⟨⟨?_, ?_, ?_, ?_⟩, ?_, ?_, ?_, rfl⟩
  · unfold mint_batch; split_ifs <;> rfl
  · unfold mint_batch; split_ifs <;> rfl
  · unfold transfer_ownership; split_ifs <;> rfl
  · unfold transfer_ownership; split_ifs <;> rfl
  · intro h
    constructor <;> [unfold mint_batch; unfold transfer_ownership] <;> rw [if_pos h]
  · intro h
    constructor <;> [unfold mint_batch; unfold transfer_ownership] <;>
      split_ifs with h1 h2 <;> simp_all
  · intro h
    constructor <;> [unfold mint_batch; unfold transfer_ownership] <;>
      split_ifs <;> simp_all

/-- C5, witness: the amended theorem at an open circuit and at a missing
client. -/
theorem C5_witness :
    mint_batch 60 3 30 envMintOk cbOpen = (mock_tx_result envMintOk.mock_hash, cbOpen) ∧
    (mint_batch 0 3 30 envMintDown cb0).1 = mock_tx_result envMintDown.mock_hash := by
  refine ⟨((C5_degraded_result_amended 60 3 30 envMintOk cbOpen).2.1 (by decide)).1, ?_⟩
  exact ((C5_degraded_result_amended 0 3 30 envMintDown cb0).2.2.1 rfl).1

/-! ### Claim C6 -/

/-- C6, counterexample: after three consecutive failures (recorded at time
50, threshold 3, cooldown 30) the circuit is open at time 60, yet
`fetch_events` still performs the RPC interaction and returns the fetched
events — it does not short-circuit to the failure path `([], from_block)`,
so "every BlockchainService operation (including fetch_events)
short-circuits" fails at this input. -/
theorem C6_circuit_counterexample :
    is_circuit_open 60 cbOpen = true ∧
    (fetch_events 60 3 30 envOrder cbOpen 5).1 = ([mintedHigh, transferredLow], 21) ∧
    (fetch_events 60 3 30 envOrder cbOpen 5).1 ≠ ([], 5) := by
  decide

/-- C6, amended: the third consecutive failure opens the circuit for the
cooldown window; while open, `mint_batch` and `transfer_ownership`
short-circuit to the mock result without attempting the RPC call, but
`fetch_events` never consults the breaker — its returned value is
independent of the breaker state; a single success resets the failure
counter to zero and closes the circuit immediately. -/
theorem C6_circuit_amended :
    (∀ (now cd : Int) (cb : CircuitState), cb.failure_count = 2 →
        (record_failure now 3 cd cb).failure_count = 3 ∧
        (record_failure now 3 cd cb).cooldown_until = now + cd ∧
        ∀ t : Int, t < now + cd →
          is_circuit_open t (record_failure now 3 cd cb) = true) ∧
    (∀ (now : Int) (th : Nat) (cd : Int) (env : TxEnv) (cb : CircuitState),
        is_circuit_open now cb = true →
        mint_batch now th cd env cb = (mock_tx_result env.mock_hash, cb) ∧
        transfer_ownership now th cd env cb = (mock_tx_result env.mock_hash, cb)) ∧
    (∀ (now : Int) (th : Nat) (cd : Int) (env : RpcEnv) (cb cb' : CircuitState)
        (fb : Int),
        (fetch_events now th cd env cb fb).1 = (fetch_events now th cd env cb' fb).1) ∧
    (∀ cb : CircuitState,
        record_success cb = { failure_count := 0, cooldown_until := 0 }) ∧
    (∀ (cb : CircuitState) (now : Int), 0 ≤ now →
        is_circuit_open now (record_success cb) = false) := by
  refine ⟨?_, ?_, ?_, fun _ => rfl, ?_⟩
  · intro now cd cb h
    have h3 : (3 : Nat) ≤ cb.failure_count + 1 := by omega
    refine ⟨by simp [record_failure, h3, h], by simp [record_failure, h3], ?_⟩
    intro t ht
    simp only [record_failure, h3, if_pos]
    simpa [is_circuit_open] using ht
  · intro now th cd env cb h
    constructor <;> [unfold mint_batch; unfold transfer_ownership] <;> rw [if_pos h]
  · intro now th cd env cb cb' fb
    unfold fetch_events
    split_ifs <;> rfl
  · intro cb now h
    simp only [record_success, is_circuit_open]
    simpa using not_lt.2 h

/-- C6, witness: the amended theorem at a concrete failure run, open-circuit
mint, breaker-independent fetch, and success reset. -/
theorem C6_witness :
    (record_failure 50 3 30 { failure_count := 2, cooldown_until := 0 }).failure_count
        = 3 ∧
    is_circuit_open 60
        (record_failure 50 3 30 { failure_count := 2, cooldown_until := 0 }) = true ∧
    mint_batch 60 3 30 envMintOk cbOpen = (mock_tx_result envMintOk.mock_hash, cbOpen) ∧
    (fetch_events 60 3 30 envOrder cbOpen 5).1 = (fetch_events 60 3 30 envOrder cb0 5).1 ∧
    record_success cbOpen = { failure_count := 0, cooldown_until := 0 } ∧
    is_circuit_open 7 (record_success cbOpen) = false := by
  have h1 := C6_circuit_amended.1 50 30 { failure_count := 2, cooldown_until := 0 } rfl
  have h2 := C6_circuit_amended.2.1 60 3 30 envMintOk cbOpen (by decide)
  have h3 := C6_circuit_amended.2.2.1 60 3 30 envOrder cbOpen cb0 5
  have h4 := C6_circuit_amended.2.2.2.1 cbOpen
  have h5 := C6_circuit_amended.2.2.2.2 cbOpen 7 (by decide)
  exact ⟨h1.1, h1.2.2 60 (by decide), h2.1, h3, h4, h5⟩

/-! ### Claim C7 -/

/-- C7: each `mark_event_failed` call increments `retry_count` and sets
`next_retry_at = now + 2^min(retry_count, 8)` seconds, so four consecutive
failures of a fresh row produce backoff deltas of 2, 4, 8 and 16 seconds;
the backoff is capped at 256 seconds; and once `retry_count` reaches the
ceiling of 5 the row stays FAILED and is excluded from the retriable-events
query. -/
theorem C7_backoff_schedule :
    (∀ (r : EventRow) (t1 t2 t3 t4 : Int) (s1 s2 s3 s4 : String),
        r.retry_count = 0 →
        (mark_event_failed_row 5 t1 s1 r).retry_count = 1 ∧
        (mark_event_failed_row 5 t1 s1 r).next_retry_at = some (t1 + 2) ∧
        (mark_event_failed_row 5 t2 s2
            (mark_event_failed_row 5 t1 s1 r)).next_retry_at = some (t2 + 4) ∧
        (mark_event_failed_row 5 t3 s3 (mark_event_failed_row 5 t2 s2
            (mark_event_failed_row 5 t1 s1 r))).next_retry_at = some (t3 + 8) ∧
        (mark_event_failed_row 5 t4 s4 (mark_event_failed_row 5 t3 s3
            (mark_event_failed_row 5 t2 s2
              (mark_event_failed_row 5 t1 s1 r)))).next_retry_at = some (t4 + 16)) ∧
    (∀ (mr : Nat) (now : Int) (s : String) (r : EventRow),
        (mark_event_failed_row mr now s r).next_retry_at
          = some (now + (2 : Int) ^ min (r.retry_count + 1) 8) ∧
        (2 : Int) ^ min (r.retry_count + 1) 8 ≤ 256) ∧
    (∀ (now : Int) (s : String) (r : EventRow), 5 ≤ r.retry_count →
        (mark_event_failed_row 5 now s r).status = BlockchainEventStatus.FAILED ∧
        retriable_pred 5 now r = false ∧
        ∀ (lim : Nat) (rows : List EventRow),
          r ∉ retriable_events 5 now lim rows) := by
  refine ⟨?_, ?_, ?_⟩
  · intro r t1 t2 t3 t4 s1 s2 s3 s4 h
    refine ⟨?_, ?_, ?_, ?_, ?_⟩ <;> simp [mark_event_failed_row, h]
  · intro mr now s r
    constructor
    · simp [mark_event_failed_row]
    · calc (2 : Int) ^ min (r.retry_count + 1) 8
          ≤ (2 : Int) ^ 8 := by
            apply pow_le_pow_right₀ (by norm_num) (min_le_right _ _)
        _ = 256 := by norm_num
  · intro now s r h
    have hnlt : ¬ (r.retry_count < 5) := by omega
    refine ⟨by simp [mark_event_failed_row], by simp [retriable_pred, hnlt], ?_⟩
    intro lim rows
    exact not_mem_retriable_of_pred_false (by simp [retriable_pred, hnlt])

/-- C7, witness: the backoff schedule at a concrete fresh row and a concrete
poison row. -/
theorem C7_witness :
    (mark_event_failed_row 5 1000 "boom" rowFresh).next_retry_at = some (1000 + 2) ∧
    (2 : Int) ^ min (rowFresh.retry_count + 1) 8 ≤ 256 ∧
    (mark_event_failed_row 5 20 "boom" poisonRow).status
        = BlockchainEventStatus.FAILED ∧
    poisonRow ∉ retriable_events 5 20 25 [poisonRow] := by
  have h1 := C7_backoff_schedule.1 rowFresh 1000 0 0 0 "boom" "x" "x" "x" rfl
  have h2 := C7_backoff_schedule.2.1 5 1000 "boom" rowFresh
  have h3 := C7_backoff_schedule.2.2 20 "boom" poisonRow (by decide)
  exact ⟨h1.2.1, h2.2, h3.1, h3.2.2 25 [poisonRow]⟩

/-! ### Claim C9 -/

/-- C9: if the batch referenced by an event already stores this event's tx
hash, `_apply_event` succeeds and mutates no batch field at all — the batch
table is returned unchanged, whatever the event name. -/
theorem C9_replay_guard (batches : List Batch) (users : List User)
    (event_name tx_hash : String) (args : List (String × String))
    (bid : String) (b : Batch)
    (hne : (first_truthy [get_arg args "batchId", get_arg args "batch_id"]).isEmpty
      = false)
    (hparse : parseUUID (first_truthy [get_arg args "batchId", get_arg args "batch_id"])
      = some bid)
    (hfind : batches.find? (fun x => x.id == bid) = some b)
    (htx : b.blockchain_tx_hash = some tx_hash) :
    apply_event batches users event_name tx_hash args = (true, batches) := by
  unfold apply_event
  simp [hne, hparse, hfind, htx]

/-- C9, witness: the replay guard at a batch that already stores the
event's hash. -/
theorem C9_witness :
    apply_event [batchDone] [] "BatchMinted" "0xaa"
        [("batchId", "00000000-0000-0000-0000-000000000001")]
      = (true, [batchDone]) :=
  C9_replay_guard [batchDone] [] "BatchMinted" "0xaa"
    [("batchId", "00000000-0000-0000-0000-000000000001")]
    "00000000000000000000000000000001" batchDone
    (by decide) (by decide) (by decide) (by decide)

/-! ### Claim C10 -/

/-- C10: a poison row (FAILED with `retry_count ≥ 5`) whose retry deadline
has elapsed satisfies the backlog predicate — the backlog query checks only
status and `next_retry_at`, never `retry_count` — so it keeps the backlog
size at least 1, while the retriable-events query never selects it. -/
theorem C10_poison_backlog (r : EventRow) (rows : List EventRow) (now : Int)
    (lim : Nat) (hmem : r ∈ rows)
    (hst : r.status = BlockchainEventStatus.FAILED)
    (hrc : 5 ≤ r.retry_count)
    (hdue : retry_due now r.next_retry_at = true) :
    backlog_pred now r = true ∧
    1 ≤ get_event_backlog_size now rows ∧
    retriable_pred 5 now r = false ∧
    r ∉ retriable_events 5 now lim rows := by
  have hbp : backlog_pred now r = true := by
    unfold backlog_pred
    rw [hst, hdue]
    decide
  have hnlt : ¬ (r.retry_count < 5) := by omega
  refine ⟨hbp, ?_, by simp [retriable_pred, hnlt], ?_⟩
  · have hmf : r ∈ rows.filter (backlog_pred now) := List.mem_filter.mpr ⟨hmem, hbp⟩
    exact List.length_pos.mpr (List.ne_nil_of_mem hmf)
  · exact not_mem_retriable_of_pred_false (by simp [retriable_pred, hnlt])

/-- C10, witness: the poison row at time 20 (deadline 10 elapsed). -/
theorem C10_witness :
    backlog_pred 20 poisonRow = true ∧
    1 ≤ get_event_backlog_size 20 [poisonRow] ∧
    retriable_pred 5 20 poisonRow = false ∧
    poisonRow ∉ retriable_events 5 20 25 [poisonRow] :=
  C10_poison_backlog poisonRow [poisonRow] 20 25 (by decide) (by decide) (by decide)
    (by decide)

/-! ### Claim C1 -/

/-- The duplicate-key cache short-circuits `process_event` to success. -/
theorem process_event_contains_true (now : Int) (mr : Nat) (st : ProcState)
    (e : ChainEvent) (h : st.processed_keys.contains (event_key e) = true) :
    process_event now mr st e = (true, st) := by
  unfold process_event
  rw [if_pos h]

/-- The key predicate holds on the freshly inserted row. -/
theorem key_pred_fresh_row (st : ProcState) (e : ChainEvent) :
    ((fresh_row st e).tx_hash == e.tx_hash && (fresh_row st e).log_index == e.log_index)
      = true := by
  simp [fresh_row]

/-- Projection of `insert_state`: the events table gains the fresh row. -/
theorem insert_state_events (st : ProcState) (e : ChainEvent) :
    (insert_state st e).events = st.events ++ [fresh_row st e] := rfl

/-- Projection of `insert_state`: the duplicate-key cache is untouched. -/
theorem insert_state_processed_keys (st : ProcState) (e : ChainEvent) :
    (insert_state st e).processed_keys = st.processed_keys := rfl

/-- Projection of `insert_state`: the batch table is untouched. -/
theorem insert_state_batches (st : ProcState) (e : ChainEvent) :
    (insert_state st e).batches = st.batches := rfl

/-- Projection of `insert_state`: the user table is untouched. -/
theorem insert_state_users (st : ProcState) (e : ChainEvent) :
    (insert_state st e).users = st.users := rfl

/-- Projection of `insert_state`: the uuid generator advances. -/
theorem insert_state_next_id (st : ProcState) (e : ChainEvent) :
    (insert_state st e).next_id = st.next_id + 1 := rfl

/-- After a fresh insert, the key lookup finds exactly the inserted row. -/
theorem find_by_key_after_insert (st : ProcState) (e : ChainEvent)
    (hf : find_by_key st.events e.tx_hash e.log_index = none) :
    find_by_key (st.events ++ [fresh_row st e]) e.tx_hash e.log_index
      = some (fresh_row st e) := by
  unfold find_by_key at hf ⊢
  rw [find?_append_of_none _ hf]
  exact List.find?_cons_of_pos _ (key_pred_fresh_row st e)

/-- Upserting the same `(tx_hash, log_index)` twice leaves exactly one row
with that key, provided the unique constraint held beforehand. -/
theorem upsert_twice_count (st : ProcState) (e : ChainEvent)
    (h_uniq : count_key st.events e.tx_hash e.log_index <= 1) :
    count_key ((upsert_event_record (upsert_event_record st e).1 e).1).events
      e.tx_hash e.log_index = 1 := by
  rcases hf : find_by_key st.events e.tx_hash e.log_index with _ | row
  · have hf2 : find_by_key (st.events ++ [fresh_row st e]) e.tx_hash e.log_index
        = some (fresh_row st e) := find_by_key_after_insert st e hf
    simp only [upsert_event_record, hf, insert_state_events, hf2]
    unfold count_key
    unfold find_by_key at hf
    rw [List.filter_append, filter_nil_of_find?_none hf]
    simp [key_pred_fresh_row st e]
  · simp only [upsert_event_record, hf]
    unfold find_by_key at hf
    have h1 := length_filter_pos_of_find?_some hf
    unfold count_key at h_uniq ⊢
    omega

/-- A `process_event` run that returned success leaves a state on which
re-processing the same event is a no-op success. -/
theorem process_event_idem (now : Int) (mr : Nat) (st : ProcState) (e : ChainEvent)
    (h : (process_event now mr st e).1 = true) :
    process_event now mr ((process_event now mr st e).2) e
      = (true, (process_event now mr st e).2) := by
  by_cases hc : st.processed_keys.contains (event_key e) = true
  · have h1 := process_event_contains_true now mr st e hc
    rw [h1]
    exact h1
  · rw [Bool.not_eq_true] at hc
    have hcm : event_key e ∉ st.processed_keys := by simpa using hc
    rcases hf : find_by_key st.events e.tx_hash e.log_index with _ | row
    · -- fresh insert: the upsert appends `fresh_row st e`
      have hup : upsert_event_record st e = (insert_state st e, some st.next_id) := by
        unfold upsert_event_record
        rw [hf]
      have hf2 : find_by_key (insert_state st e).events e.tx_hash e.log_index
          = some (fresh_row st e) := find_by_key_after_insert st e hf
      have hup2 : upsert_event_record (insert_state st e) e
          = (insert_state st e, some st.next_id) := by
        unfold upsert_event_record
        rw [hf2]
        rfl
      rcases hrec : List.find? (fun r => r.id == st.next_id) (insert_state st e).events
        with _ | rec
      · simp [process_event, hcm, hup, hrec] at h
      · by_cases hcomp : (rec.status == BlockchainEventStatus.COMPLETED) = true
        · have hrun1 : process_event now mr st e = (true, insert_state st e) := by
            simp [process_event, hcm, hup, hrec, hcomp]
          rw [hrun1]
          simp [process_event, hcm, insert_state_processed_keys, hup2, hrec, hcomp]
        · rw [Bool.not_eq_true] at hcomp
          by_cases hfail : (rec.status == BlockchainEventStatus.FAILED
              && (match rec.next_retry_at with
                  | some t => decide (now < t)
                  | none => false)) = true
          · simp [process_event, hcm, hup, hrec, hcomp, hfail] at h
          · rw [Bool.not_eq_true] at hfail
            rcases ha : apply_event st.batches st.users e.event_name e.tx_hash e.args
              with ⟨handled, batches2⟩
            cases handled
            · simp [process_event, hcm, hup, hrec, hcomp, hfail,
                insert_state_batches, insert_state_users, ha] at h
            · have hstate : (process_event now mr st e).2.processed_keys
                  = st.processed_keys ++ [event_key e] := by
                simp [process_event, hcm, hup, hrec, hcomp, hfail,
                  insert_state_batches, insert_state_users, ha,
                  insert_state_processed_keys]
              have hcont : ((process_event now mr st e).2).processed_keys.contains
                  (event_key e) = true := by
                rw [hstate]
                exact contains_append_self _ _
              exact process_event_contains_true now mr _ e hcont
    · -- the row already existed: the upsert returns its id, state unchanged
      have hup : upsert_event_record st e = (st, some row.id) := by
        unfold upsert_event_record
        rw [hf]
      rcases hrec : List.find? (fun r => r.id == row.id) st.events with _ | rec
      · simp [process_event, hcm, hup, hrec] at h
      · by_cases hcomp : (rec.status == BlockchainEventStatus.COMPLETED) = true
        · have hrun1 : process_event now mr st e = (true, st) := by
            simp [process_event, hcm, hup, hrec, hcomp]
          rw [hrun1]
          simp [process_event, hcm, hup, hrec, hcomp]
        · rw [Bool.not_eq_true] at hcomp
          by_cases hfail : (rec.status == BlockchainEventStatus.FAILED
              && (match rec.next_retry_at with
                  | some t => decide (now < t)
                  | none => false)) = true
          · simp [process_event, hcm, hup, hrec, hcomp, hfail] at h
          · rw [Bool.not_eq_true] at hfail
            rcases ha : apply_event st.batches st.users e.event_name e.tx_hash e.args
              with ⟨handled, batches2⟩
            cases handled
            · simp [process_event, hcm, hup, hrec, hcomp, hfail, ha] at h
            · have hstate : (process_event now mr st e).2.processed_keys
                  = st.processed_keys ++ [event_key e] := by
                simp [process_event, hcm, hup, hrec, hcomp, hfail, ha]
              have hcont : ((process_event now mr st e).2).processed_keys.contains
                  (event_key e) = true := by
                rw [hstate]
                exact contains_append_self _ _
              exact process_event_contains_true now mr _ e hcont

/-- C1: upserting the same `(tx_hash, log_index)` event twice leaves exactly
one stored row for that key (given the unique constraint held before), and
running the full pipeline twice on an event whose first run succeeded
mutates the batch exactly once — the second run returns success and changes
nothing (neither batch fields nor any other state). -/
theorem C1_upsert_pipeline_idempotent (now : Int) (st stP : ProcState)
    (e eP : ChainEvent)
    (h_uniq : count_key st.events e.tx_hash e.log_index ≤ 1)
    (h_run1 : (process_event now 5 stP eP).1 = true) :
    count_key ((upsert_event_record (upsert_event_record st e).1 e).1).events
        e.tx_hash e.log_index = 1 ∧
    process_event now 5 ((process_event now 5 stP eP).2) eP
      = (true, (process_event now 5 stP eP).2) :=
  ⟨upsert_twice_count st e h_uniq, process_event_idem now 5 stP eP h_run1⟩

/-- C1, witness: a concrete double upsert and a concrete double pipeline
run of `eW` against `stW`. -/
theorem C1_witness :
    count_key ((upsert_event_record (upsert_event_record stW eW).1 eW).1).events
        eW.tx_hash eW.log_index = 1 ∧
    process_event 0 5 ((process_event 0 5 stW eW).2) eW
      = (true, (process_event 0 5 stW eW).2) :=
  C1_upsert_pipeline_idempotent 0 stW stW eW eW (by decide) (by decide)

/-! ### Claim C8 -/

/-- C8, counterexample: processing the concrete `OwnershipTransferred`
event `eT` (target wallet matching no user) at time 100 leaves the event
row FAILED with `retry_count = 1` and `next_retry_at = 102` (in the
future) and the batch untouched — but the backlog-size query at time 100
counts 0, not 1: a FAILED row with a future `next_retry_at` is excluded
from the backlog count, contradicting the claim that the backlog still
counts it while the retry deadline has not elapsed. -/
theorem C8_unknown_wallet_counterexample :
    (process_event 100 5 stT eT).1 = false ∧
    ((process_event 100 5 stT eT).2).batches = [batchT] ∧
    ((process_event 100 5 stT eT).2).events = [failed_after_no_user stT eT 100] ∧
    (failed_after_no_user stT eT 100).status = BlockchainEventStatus.FAILED ∧
    (failed_after_no_user stT eT 100).retry_count = 1 ∧
    (failed_after_no_user stT eT 100).next_retry_at = some 102 ∧
    get_event_backlog_size 100 ((process_event 100 5 stT eT).2).events = 0 := by
  decide

/-- C8, amended: an `OwnershipTransferred` event whose target wallet matches
no user leaves the event row FAILED with `retry_count = 1` and
`next_retry_at = now + 2` (in the future), leaves the batch table — and so
`current_owner_id` — unchanged, and until `next_retry_at` elapses the row is
excluded from both the backlog-size query and the retriable-events query;
once it elapses, both count it again. -/
theorem C8_unknown_wallet_amended (now : Int) (st : ProcState) (e : ChainEvent)
    (hkey : event_key e ∉ st.processed_keys)
    (hfresh : find_by_key st.events e.tx_hash e.log_index = none)
    (hid : ∀ r ∈ st.events, (r.id == st.next_id) = false)
    (hname : e.event_name = "OwnershipTransferred")
    (bid : String) (b : Batch)
    (hne : (first_truthy [get_arg e.args "batchId", get_arg e.args "batch_id"]).isEmpty
      = false)
    (hparse : parseUUID
        (first_truthy [get_arg e.args "batchId", get_arg e.args "batch_id"])
      = some bid)
    (hfind : st.batches.find? (fun x => x.id == bid) = some b)
    (htx : (b.blockchain_tx_hash == some e.tx_hash) = false)
    (hto : (first_truthy
        [get_arg e.args "to", get_arg e.args "newOwner", get_arg e.args "to_addr"]).isEmpty
      = false)
    (huser : st.users.find? (fun u => str_lower u.wallet_address
        == str_lower (first_truthy
          [get_arg e.args "to", get_arg e.args "newOwner", get_arg e.args "to_addr"]))
      = none) :
    process_event now 5 st e
      = (false, { st with
          events := st.events ++ [failed_after_no_user st e now],
          next_id := st.next_id + 1 }) ∧
    ((process_event now 5 st e).2).batches = st.batches ∧
    backlog_pred now (failed_after_no_user st e now) = false ∧
    retriable_pred 5 now (failed_after_no_user st e now) = false ∧
    backlog_pred (now + 2) (failed_after_no_user st e now) = true ∧
    retriable_pred 5 (now + 2) (failed_after_no_user st e now) = true := by
  have hup : upsert_event_record st e = (insert_state st e, some st.next_id) := by
    unfold upsert_event_record
    rw [hfresh]
  have hrec : List.find? (fun r => r.id == st.next_id) (insert_state st e).events
      = some (fresh_row st e) :=
    find?_id_append_fresh st.events (fresh_row st e) hid
  have hs1 : ("OwnershipTransferred" == "BatchMinted") = false := by decide
  have hs2 : ("OwnershipTransferred" == "OwnershipTransferred") = true := by decide
  have happ : apply_event st.batches st.users e.event_name e.tx_hash e.args
      = (false, st.batches) := by
    rw [hname]
    unfold apply_event
    simp [hne, hparse, hfind, htx, hto, huser, hs1, hs2]
  have hst1 : ((fresh_row st e).status == BlockchainEventStatus.COMPLETED) = false := rfl
  have hst2 : ((fresh_row st e).status == BlockchainEventStatus.FAILED) = false := rfl
  have hupd1 : update_row (insert_state st e).events st.next_id
      (fun r => { r with status := BlockchainEventStatus.PROCESSING })
      = st.events ++ [{ fresh_row st e with status := BlockchainEventStatus.PROCESSING }] :=
    update_row_append_fresh st.events (fresh_row st e) _ hid
  have hupd2 : mark_event_failed
      (st.events ++ [{ fresh_row st e with status := BlockchainEventStatus.PROCESSING }])
      st.next_id 5 now "Domain apply returned false"
      = st.events ++ [failed_after_no_user st e now] := by
    unfold mark_event_failed
    have hx : update_row
        (st.events ++ [{ fresh_row st e with status := BlockchainEventStatus.PROCESSING }])
        st.next_id (mark_event_failed_row 5 now "Domain apply returned false")
        = st.events ++ [mark_event_failed_row 5 now "Domain apply returned false"
            { fresh_row st e with status := BlockchainEventStatus.PROCESSING }] :=
      update_row_append_fresh st.events _ _ hid
    rw [hx]
    simp [mark_event_failed_row, failed_after_no_user, fresh_row]
  have hmain : process_event now 5 st e
      = (false, { st with
          events := st.events ++ [failed_after_no_user st e now],
          next_id := st.next_id + 1 }) := by
    simp [process_event, hkey, hup, hrec, hst1, hst2,
      insert_state_batches, insert_state_users, insert_state_processed_keys,
      insert_state_next_id, happ, hupd1, hupd2]
  have hn : ¬ (now + 2 ≤ now) := by omega
  have hd : (now + 2 : Int) ≤ now + 2 := le_refl _
  refine ⟨hmain, by rw [hmain], ?_, ?_, ?_, ?_⟩
  · simp [backlog_pred, failed_after_no_user, retry_due, hn]
  · simp [retriable_pred, failed_after_no_user, retry_due, hn]
  · simp [backlog_pred, failed_after_no_user, retry_due, hd]
  · simp [retriable_pred, failed_after_no_user, retry_due, hd]

/-- C8, witness: the amended theorem at the concrete scenario `stT`/`eT`. -/
theorem C8_witness :
    process_event 100 5 stT eT
      = (false, { stT with
          events := stT.events ++ [failed_after_no_user stT eT 100],
          next_id := stT.next_id + 1 }) ∧
    ((process_event 100 5 stT eT).2).batches = stT.batches ∧
    backlog_pred 100 (failed_after_no_user stT eT 100) = false ∧
    retriable_pred 5 100 (failed_after_no_user stT eT 100) = false ∧
    backlog_pred (100 + 2) (failed_after_no_user stT eT 100) = true ∧
    retriable_pred 5 (100 + 2) (failed_after_no_user stT eT 100) = true :=
  C8_unknown_wallet_amended 100 stT eT (by decide) (by decide) (by decide) (by decide)
    "00000000000000000000000000000002" batchT (by decide) (by decide) (by decide)
    (by decide) (by decide) (by decide)

end Agrich
